import Mathlib

/-!
Verification of the asteroid impact simulator core (src/app.py).

The computational core of the program is a set of pure arithmetic
functions: the impact-energy calculator (app.py lines 40-45), the
severity classifier (lines 56-61), the effect-magnitude values
(lines 64-68), the orbit sampler (lines 108-126) and the mitigation
evaluator (lines 153-156).  Python floats are modelled by real
numbers; `math.pi` is `Real.pi`, `math.radians t` is `t * pi / 180`.
-/

open Real

/-- Severity tiers, in the order of the if/elif/else branches of
app.py lines 56-61 (Regional, Continental, Global). -/
inductive SeverityTier
  | Regional
  | Continental
  | Global
deriving DecidableEq, Repr

/-- Numeric rank of a tier, used to express monotonicity of the classifier. -/
def tierRank : SeverityTier → ℕ
  | SeverityTier.Regional => 0
  | SeverityTier.Continental => 1
  | SeverityTier.Global => 2

/-- Result record of the impact-energy calculator (spec section 6). -/
structure ImpactEstimate where
  mass_kg : ℝ
  energy_joules : ℝ
  energy_megatons : ℝ

/-- Impact-energy calculator, embedding app.py lines 40-45:
radius = diameter/2; volume = (4/3)*pi*radius**3; mass = volume*density;
vel_ms = velocity*1000; energy_joules = 0.5*mass*vel_ms**2;
energy_megatons = energy_joules / 4.184e15. -/
noncomputable def computeImpact (diameter velocity density : ℝ) : ImpactEstimate :=
  let radius := diameter / 2
  let volume := (4 / 3) * Real.pi * radius ^ 3
  let mass := volume * density
  let vel_ms := velocity * 1000
  let energy_joules := 0.5 * mass * vel_ms ^ 2
  let energy_megatons := energy_joules / 4.184e15
  ⟨mass, energy_joules, energy_megatons⟩

/-- Severity classifier, embedding the if/elif/else of app.py lines 56-61. -/
noncomputable def classifySeverity (energy_megatons : ℝ) : SeverityTier :=
  if energy_megatons < 100 then SeverityTier.Regional
  else if energy_megatons < 10000 then SeverityTier.Continental
  else SeverityTier.Global

/-- Effect-magnitude values list, embedding app.py lines 64-68:
[min(energy_megatons/100, 100), min(energy_megatons/1000, 100),
 min(energy_megatons/10000, 100)]. -/
noncomputable def effectValues (energy_megatons : ℝ) : ℝ × ℝ × ℝ :=
  (min (energy_megatons / 100) 100,
   min (energy_megatons / 1000) 100,
   min (energy_megatons / 10000) 100)

/-- Mitigation evaluator, embedding the conditional of app.py lines 153-156:
saved iff delta_v > 0 and lead_time > 0. -/
def evaluateMitigation (delta_v lead_time : ℝ) : Prop :=
  delta_v > 0 ∧ lead_time > 0

/-- Degree list of the orbit sampler, app.py line 108: range(0, 360). -/
def theta : List ℕ := List.range 360

/-- Degrees to radians, as Python math.radians. -/
noncomputable def radians (t : ℝ) : ℝ := t * Real.pi / 180

/-- app.py line 109. -/
noncomputable def earth_orbit_x : List ℝ :=
  theta.map (fun t : ℕ => Real.cos (radians t))

/-- app.py line 110. -/
noncomputable def earth_orbit_y : List ℝ :=
  theta.map (fun t : ℕ => Real.sin (radians t))

/-- app.py line 111. -/
noncomputable def asteroid_orbit_x : List ℝ :=
  theta.map (fun t : ℕ => 1.5 * Real.cos (radians t))

/-- app.py line 112. -/
noncomputable def asteroid_orbit_y : List ℝ :=
  theta.map (fun t : ℕ => 0.7 * Real.sin (radians t))

/-- The z coordinate list of both Scatter3d traces, app.py lines 118 and 124:
[0]*360. -/
def orbit_z : List ℝ := List.replicate 360 0

/-- Points of the reference (Earth) curve: the x, y, z lists paired
sample-by-sample, as the Scatter3d trace of app.py lines 117-120 does. -/
noncomputable def earthPoints : List (ℝ × ℝ × ℝ) :=
  earth_orbit_x.zip (earth_orbit_y.zip orbit_z)

/-- Points of the impactor (asteroid) curve, app.py lines 123-126. -/
noncomputable def asteroidPoints : List (ℝ × ℝ × ℝ) :=
  asteroid_orbit_x.zip (asteroid_orbit_y.zip orbit_z)

lemma orbit_z_eq_map : orbit_z = theta.map (fun _ => (0 : ℝ)) := by
  simp [orbit_z, theta]

lemma earthPoints_eq :
    earthPoints =
      theta.map (fun t : ℕ => (Real.cos (radians t), Real.sin (radians t), (0 : ℝ))) := by
  rw [earthPoints, earth_orbit_x, earth_orbit_y, orbit_z_eq_map,
    List.zip_map', List.zip_map']

lemma asteroidPoints_eq :
    asteroidPoints =
      theta.map (fun t : ℕ =>
        (1.5 * Real.cos (radians t), 0.7 * Real.sin (radians t), (0 : ℝ))) := by
  rw [asteroidPoints, asteroid_orbit_x, asteroid_orbit_y, orbit_z_eq_map,
    List.zip_map', List.zip_map']

lemma radians_zero : radians 0 = 0 := by
  simp [radians]

lemma radians_ninety : radians 90 = Real.pi / 2 := by
  rw [radians]; ring

/-- C1: for every input, computeImpact returns mass_kg = (4/3)*pi*(diameter/2)^3*density,
energy_joules = 0.5*mass_kg*(velocity*1000)^2, and
energy_megatons = energy_joules / 4.184e15, exactly the section 4.1 formulas. -/
theorem computeImpact_formulas (d v ρ : ℝ) :
    (computeImpact d v ρ).mass_kg = (4 / 3) * Real.pi * (d / 2) ^ 3 * ρ
    ∧ (computeImpact d v ρ).energy_joules
        = 0.5 * (computeImpact d v ρ).mass_kg * (v * 1000) ^ 2
    ∧ (computeImpact d v ρ).energy_megatons
        = (computeImpact d v ρ).energy_joules / 4.184e15 :=
  ⟨rfl, rfl, rfl⟩

/-- C2 counterexample: at diameter 300, velocity 20, density 3000 the code's
energy_megatons differs from the spec's stated 202.8 by more than 1800 megatons
(the actual value is about 2027.3), so energy_megatons is not approximately
202.8. -/
theorem computeImpact_300_not_202 :
    |(computeImpact 300 20 3000).energy_megatons - 202.8| > 1800 := by
  have hπ := Real.pi_gt_d4
  have key : (computeImpact 300 20 3000).energy_megatons - 202.8 > 1800 := by
    simp only [computeImpact]
    nlinarith
  exact lt_of_lt_of_le key (le_abs_self _)

/-- C2 amended: at diameter 300, velocity 20, density 3000 computeImpact yields
mass_kg within 1e7 of 4.2412e10 and energy_megatons strictly between 2027 and
2028 (about 2027.3, ten times the spec's stated 202.8). -/
theorem computeImpact_300_reference :
    |(computeImpact 300 20 3000).mass_kg - 4.2412e10| < 1e7
    ∧ 2027 < (computeImpact 300 20 3000).energy_megatons
    ∧ (computeImpact 300 20 3000).energy_megatons < 2028 := by
  have hlo := Real.pi_gt_d4
  have hhi := Real.pi_lt_d4
  refine ⟨?_, ?_, ?_⟩
  · rw [abs_lt]
    constructor <;> (simp only [computeImpact]; nlinarith)
  · simp only [computeImpact]; nlinarith
  · simp only [computeImpact]; nlinarith

/-- C3: for nonnegative energies the classifier returns Regional iff
energy < 100, Continental iff 100 <= energy < 10000, Global iff
energy >= 10000, and it is monotone in the energy. -/
theorem classifySeverity_partition (e e₂ : ℝ) (h : 0 ≤ e) (h₂ : e ≤ e₂) :
    ((classifySeverity e = SeverityTier.Regional ↔ e < 100)
     ∧ (classifySeverity e = SeverityTier.Continental ↔ 100 ≤ e ∧ e < 10000)
     ∧ (classifySeverity e = SeverityTier.Global ↔ 10000 ≤ e))
    ∧ tierRank (classifySeverity e) ≤ tierRank (classifySeverity e₂) := by
  constructor
  · unfold classifySeverity
    split_ifs with h1 h2 <;> refine ⟨?_, ?_, ?_⟩ <;> simp_all [not_lt, not_le] <;>
      linarith
  · unfold classifySeverity
    split_ifs <;> simp [tierRank] <;> linarith

/-- C3 witness: the partition and monotonicity statement instantiated at
energy 50 and 200. -/
theorem classifySeverity_partition_witness :
    ((classifySeverity 50 = SeverityTier.Regional ↔ (50 : ℝ) < 100)
     ∧ (classifySeverity 50 = SeverityTier.Continental ↔ (100 : ℝ) ≤ 50 ∧ (50 : ℝ) < 10000)
     ∧ (classifySeverity 50 = SeverityTier.Global ↔ (10000 : ℝ) ≤ 50))
    ∧ tierRank (classifySeverity 50) ≤ tierRank (classifySeverity 200) :=
  classifySeverity_partition 50 200 (by norm_num) (by norm_num)

/-- C4: for nonnegative energy the three effect magnitudes are
min(e/100,100), min(e/1000,100), min(e/10000,100), each at most 100;
at energy 0 all three are 0, and at energy 1e9 all three are exactly 100. -/
theorem effectValues_clamped (e : ℝ) (h : 0 ≤ e) :
    effectValues e = (min (e / 100) 100, min (e / 1000) 100, min (e / 10000) 100)
    ∧ (effectValues e).1 ≤ 100
    ∧ (effectValues e).2.1 ≤ 100
    ∧ (effectValues e).2.2 ≤ 100
    ∧ effectValues 0 = (0, 0, 0)
    ∧ effectValues 1e9 = (100, 100, 100) := by
  refine ⟨rfl, min_le_right _ _, min_le_right _ _, min_le_right _ _, ?_, ?_⟩
  · simp [effectValues]
  · simp only [effectValues, Prod.mk.injEq]
    norm_num

/-- C4 witness: the clamping statement instantiated at energy 50. -/
theorem effectValues_clamped_witness :
    effectValues 50
      = (min ((50 : ℝ) / 100) 100, min ((50 : ℝ) / 1000) 100, min ((50 : ℝ) / 10000) 100)
    ∧ (effectValues 50).1 ≤ 100
    ∧ (effectValues 50).2.1 ≤ 100
    ∧ (effectValues 50).2.2 ≤ 100
    ∧ effectValues 0 = (0, 0, 0)
    ∧ effectValues 1e9 = (100, 100, 100) :=
  effectValues_clamped 50 (by norm_num)

/-- C5: evaluateMitigation returns saved iff delta_v > 0 and lead_time > 0,
strict on both axes; in particular (0,5), (10,0) and (0,0) are not saved while
(10,5) is saved. -/
theorem evaluateMitigation_rule :
    (∀ delta_v lead_time : ℝ,
      evaluateMitigation delta_v lead_time ↔ delta_v > 0 ∧ lead_time > 0)
    ∧ ¬ evaluateMitigation 0 5
    ∧ ¬ evaluateMitigation 10 0
    ∧ evaluateMitigation 10 5
    ∧ ¬ evaluateMitigation 0 0 := by
  refine ⟨fun _ _ => Iff.rfl, ?_, ?_, ?_, ?_⟩ <;> simp [evaluateMitigation]

/-- C7: computeImpact is strictly increasing in each parameter separately on
strictly positive inputs: a larger diameter or density strictly increases the
mass and the energies, and a larger velocity strictly increases the energies. -/
theorem computeImpact_strictMono (d d₂ v v₂ ρ ρ₂ : ℝ)
    (hd : 0 < d) (hv : 0 < v) (hρ : 0 < ρ) :
    (d < d₂ →
      (computeImpact d v ρ).mass_kg < (computeImpact d₂ v ρ).mass_kg
      ∧ (computeImpact d v ρ).energy_joules < (computeImpact d₂ v ρ).energy_joules
      ∧ (computeImpact d v ρ).energy_megatons < (computeImpact d₂ v ρ).energy_megatons)
    ∧ (v < v₂ →
      (computeImpact d v ρ).energy_joules < (computeImpact d v₂ ρ).energy_joules
      ∧ (computeImpact d v ρ).energy_megatons < (computeImpact d v₂ ρ).energy_megatons)
    ∧ (ρ < ρ₂ →
      (computeImpact d v ρ).mass_kg < (computeImpact d v ρ₂).mass_kg
      ∧ (computeImpact d v ρ).energy_joules < (computeImpact d v ρ₂).energy_joules
      ∧ (computeImpact d v ρ).energy_megatons < (computeImpact d v ρ₂).energy_megatons) := by
  have hπ : (0 : ℝ) < Real.pi := Real.pi_pos
  simp only [computeImpact]
  refine ⟨fun hlt => ⟨?_, ?_, ?_⟩, fun hlt => ⟨?_, ?_⟩, fun hlt => ⟨?_, ?_, ?_⟩⟩ <;>
    gcongr

/-- C7 witness: strict monotonicity instantiated at concrete inputs
(1 < 2 in each coordinate, the other two fixed at 1). -/
theorem computeImpact_strictMono_witness :
    (computeImpact 1 1 1).mass_kg < (computeImpact 2 1 1).mass_kg
    ∧ (computeImpact 1 1 1).energy_joules < (computeImpact 1 2 1).energy_joules
    ∧ (computeImpact 1 1 1).energy_megatons < (computeImpact 1 1 2).energy_megatons := by
  have h := computeImpact_strictMono 1 2 1 2 1 2
    (by norm_num) (by norm_num) (by norm_num)
  exact ⟨(h.1 (by norm_num)).1, (h.2.1 (by norm_num)).1, (h.2.2 (by norm_num)).2.2⟩

/-- C8: the classifier is total over all real energies, nonnegative or not:
every input gets exactly one of the three tiers, and every negative input is
classified Regional. -/
theorem classifySeverity_total (e : ℝ) :
    (∃! tier, classifySeverity e = tier)
    ∧ (classifySeverity e = SeverityTier.Regional
        ∨ classifySeverity e = SeverityTier.Continental
        ∨ classifySeverity e = SeverityTier.Global)
    ∧ (e < 0 → classifySeverity e = SeverityTier.Regional) := by
  refine ⟨⟨classifySeverity e, rfl, fun _ ht => ht.symm⟩, ?_, fun hneg => ?_⟩
  · unfold classifySeverity
    split_ifs <;> simp
  · unfold classifySeverity
    rw [if_pos (by linarith : e < 100)]

/-- C8 witness: the totality statement instantiated at energy -5, where the
negative branch applies. -/
theorem classifySeverity_total_witness :
    classifySeverity (-5) = SeverityTier.Regional :=
  (classifySeverity_total (-5)).2.2 (by norm_num)

/-- C9: the clamp is upper-only: for every negative energy all three effect
magnitudes are strictly negative (no lower clamp to 0 is applied). -/
theorem effectValues_neg (e : ℝ) (h : e < 0) :
    (effectValues e).1 < 0 ∧ (effectValues e).2.1 < 0 ∧ (effectValues e).2.2 < 0
    ∧ effectValues e = (min (e / 100) 100, min (e / 1000) 100, min (e / 10000) 100) := by
  refine ⟨?_, ?_, ?_, rfl⟩
  · show min (e / 100) 100 < 0
    exact lt_of_le_of_lt (min_le_left _ _) (by linarith)
  · show min (e / 1000) 100 < 0
    exact lt_of_le_of_lt (min_le_left _ _) (by linarith)
  · show min (e / 10000) 100 < 0
    exact lt_of_le_of_lt (min_le_left _ _) (by linarith)

/-- C9 witness: the negative-value statement instantiated at energy -100. -/
theorem effectValues_neg_witness :
    (effectValues (-100)).1 < 0 ∧ (effectValues (-100)).2.1 < 0
    ∧ (effectValues (-100)).2.2 < 0
    ∧ effectValues (-100)
        = (min ((-100 : ℝ) / 100) 100, min ((-100 : ℝ) / 1000) 100,
           min ((-100 : ℝ) / 10000) 100) :=
  effectValues_neg (-100) (by norm_num)

/-- C10: the mitigation outcome depends only on the positivity of each input:
two scenarios whose inputs agree in sign of positivity get the same saved
outcome, regardless of magnitudes. -/
theorem evaluateMitigation_signOnly (delta_v lead_time delta_v₂ lead_time₂ : ℝ)
    (hdv : delta_v > 0 ↔ delta_v₂ > 0) (hlt : lead_time > 0 ↔ lead_time₂ > 0) :
    evaluateMitigation delta_v lead_time ↔ evaluateMitigation delta_v₂ lead_time₂ := by
  unfold evaluateMitigation
  rw [hdv, hlt]

/-- C10 witness: scenarios (1,1) and (2,3) agree in positivity and get the
same outcome. -/
theorem evaluateMitigation_signOnly_witness :
    evaluateMitigation 1 1 ↔ evaluateMitigation 2 3 :=
  evaluateMitigation_signOnly 1 1 2 3 (by norm_num) (by norm_num)

/-- C6: both orbit curves have exactly 360 points, generated at integer
degrees t in [0,360) as (cos t°, sin t°, 0) for the reference curve and
(1.5 cos t°, 0.7 sin t°, 0) for the impactor curve; the points at t = 0 are
(1,0,0) and (1.5,0,0), the points at t = 90 are (0,1,0) and (0,0.7,0), and
every sample of either curve has z = 0. -/
theorem sampleOrbits_spec (t : ℕ) (ht : t < 360) :
    earthPoints.length = 360
    ∧ asteroidPoints.length = 360
    ∧ earthPoints[t]?
        = some (Real.cos (radians t), Real.sin (radians t), 0)
    ∧ asteroidPoints[t]?
        = some (1.5 * Real.cos (radians t), 0.7 * Real.sin (radians t), 0)
    ∧ earthPoints[0]? = some ((1 : ℝ), 0, 0)
    ∧ asteroidPoints[0]? = some ((1.5 : ℝ), 0, 0)
    ∧ earthPoints[90]? = some ((0 : ℝ), 1, 0)
    ∧ asteroidPoints[90]? = some ((0 : ℝ), (0.7 : ℝ), 0)
    ∧ (∀ p ∈ earthPoints, p.2.2 = 0)
    ∧ (∀ p ∈ asteroidPoints, p.2.2 = 0) := by
  have hb90 : (90 : ℕ) < 360 := by norm_num
  have hb0 : (0 : ℕ) < 360 := by norm_num
  have egen : ∀ s : ℕ, s < 360 →
      earthPoints[s]? = some (Real.cos (radians s), Real.sin (radians s), 0) := by
    intro s hs
    rw [earthPoints_eq, theta]
    simp [List.getElem?_map, List.getElem?_range, hs]
  have agen : ∀ s : ℕ, s < 360 →
      asteroidPoints[s]?
        = some (1.5 * Real.cos (radians s), 0.7 * Real.sin (radians s), 0) := by
    intro s hs
    rw [asteroidPoints_eq, theta]
    simp [List.getElem?_map, List.getElem?_range, hs]
  refine ⟨?_, ?_, egen t ht, agen t ht, ?_, ?_, ?_, ?_, ?_, ?_⟩
  · rw [earthPoints_eq]; simp [theta]
  · rw [asteroidPoints_eq]; simp [theta]
  · rw [egen 0 hb0]
    norm_num [radians_zero]
  · rw [agen 0 hb0]
    norm_num [radians_zero]
  · rw [egen 90 hb90]
    norm_num [radians_ninety]
  · rw [agen 90 hb90]
    norm_num [radians_ninety]
  · rw [earthPoints_eq]
    rintro p hp
    rw [List.mem_map] at hp
    obtain ⟨s, -, rfl⟩ := hp
    rfl
  · rw [asteroidPoints_eq]
    rintro p hp
    rw [List.mem_map] at hp
    obtain ⟨s, -, rfl⟩ := hp
    rfl

/-- C6 witness: the orbit sampling statement instantiated at degree 45. -/
theorem sampleOrbits_spec_witness :
    earthPoints.length = 360
    ∧ asteroidPoints.length = 360
    ∧ earthPoints[45]?
        = some (Real.cos (radians 45), Real.sin (radians 45), 0)
    ∧ asteroidPoints[45]?
        = some (1.5 * Real.cos (radians 45), 0.7 * Real.sin (radians 45), 0)
    ∧ earthPoints[0]? = some ((1 : ℝ), 0, 0)
    ∧ asteroidPoints[0]? = some ((1.5 : ℝ), 0, 0)
    ∧ earthPoints[90]? = some ((0 : ℝ), 1, 0)
    ∧ asteroidPoints[90]? = some ((0 : ℝ), (0.7 : ℝ), 0)
    ∧ (∀ p ∈ earthPoints, p.2.2 = 0)
    ∧ (∀ p ∈ asteroidPoints, p.2.2 = 0) :=
  sampleOrbits_spec 45 (by norm_num)
